import Mathlib

/-!
# Verification of the accordion widget and static host

Shallow embedding of `src/public/index.js` (the accordion click handler)
and `src/unnamed/part_000` (the Express static host), with theorems about
the claimed behaviors.

The DOM state relevant to the widget is, per panel: the presence of the
CSS class `"expanded"` on the title element, and the `style.display`
string of its adjacent description element. A page with `n` panels is a
function `Fin n → Panel`.
-/

namespace Accordion

/-- One title/description pair: `expanded` is the presence of the
`"expanded"` class on the title (`classList.contains("expanded")`),
`display` is the description's `style.display` string. -/
structure Panel where
  expanded : Bool
  display : String
deriving DecidableEq, Repr

/-- Lines 10–15 of `src/public/index.js` applied to the clicked panel:
`this.classList.toggle("expanded")`, then `display := "flex"` if the
class is now present, else `"none"`. -/
def togglePanel (p : Panel) : Panel :=
  let e := !p.expanded
  { expanded := e, display := if e then "flex" else "none" }

/-- Lines 34–35 of `src/public/index.js` applied to each other panel in
the exclusive branch: `classList.remove("expanded")` and
`style.display := "none"`. -/
def collapsePanel (_p : Panel) : Panel :=
  { expanded := false, display := "none" }

/-- The click listener of `src/public/index.js` lines 7–39, as a pointwise
state transformer. `multiOpenChecked` is `multiOpen.checked` read during
this invocation (line 16); `clicked` is the index of the title `this`
bound by the event. The clicked panel is toggled (lines 10–15); when the
checkbox is unchecked, every other panel (`otherTitle !== this`, line 33)
is collapsed (lines 19–37); when it is checked, other panels are left
untouched. -/
def handleClick {n : Nat} (multiOpenChecked : Bool) (clicked : Fin n)
    (panels : Fin n → Panel) : Fin n → Panel :=
  fun j =>
    if j = clicked then togglePanel (panels j)
    else if multiOpenChecked then panels j
    else collapsePanel (panels j)

/-- The set of indices of panels carrying the `"expanded"` class. -/
def expandedSet {n : Nat} (panels : Fin n → Panel) : Finset (Fin n) :=
  Finset.univ.filter (fun j => (panels j).expanded = true)

/-- A sequence of clicks, each event carrying the checkbox value read at
that click (line 16 reads `multiOpen.checked` inside the listener body,
so each invocation sees the value current at that click). -/
def runClicks {n : Nat} (events : List (Bool × Fin n))
    (panels : Fin n → Panel) : Fin n → Panel :=
  events.foldl (fun s e => handleClick e.1 e.2 s) panels

/-- Modelled from the spec: the alternative semantics the spec rules out,
in which the checkbox value is cached at initialization (`cachedMode`) and
every click uses that cached value instead of the value current at the
click. -/
def runClicksCachedMode {n : Nat} (cachedMode : Bool) (events : List (Fin n))
    (panels : Fin n → Panel) : Fin n → Panel :=
  events.foldl (fun s i => handleClick cachedMode i s) panels

/-- Consistency: a description shows (`display = "flex"`) exactly when its
title carries the `"expanded"` class. -/
def consistent {n : Nat} (panels : Fin n → Panel) : Prop :=
  ∀ j, (panels j).display = "flex" ↔ (panels j).expanded = true

instance consistentDecidable {n : Nat} (panels : Fin n → Panel) :
    Decidable (consistent panels) := by
  unfold consistent
  infer_instance

/-- A collapsed panel, the initial state driven by the page's CSS. -/
def collapsedPanel : Panel := { expanded := false, display := "none" }

/-- Three panels, all collapsed: the initial state of the spec scenario. -/
def init3 : Fin 3 → Panel := fun _ => collapsedPanel

/-- Two panels, both collapsed: a concrete state for witnesses. -/
def init2w : Fin 2 → Panel := fun _ => collapsedPanel

/-- Two panels with the first expanded: a concrete state for witnesses. -/
def exp2w : Fin 2 → Panel :=
  fun j => if j = 0 then { expanded := true, display := "flex" }
           else collapsedPanel

end Accordion

namespace Server

/-- HTTP request methods distinguished by the host's routing. -/
inductive Method
  | get
  | other
deriving DecidableEq, Repr

/-- An incoming HTTP request: method and path. -/
structure Request where
  method : Method
  path : String
deriving DecidableEq, Repr

/-- An HTTP response: status code, `Content-Type`, and the file served
(empty for the not-found fallback). -/
structure Response where
  status : Nat
  contentType : String
  file : String
deriving DecidableEq, Repr

/-- `pre` is an initial segment of `s`, on character lists. -/
def charsStartWith : List Char → List Char → Bool
  | [], _ => true
  | _ :: _, [] => false
  | c :: cs, d :: ds => c = d && charsStartWith cs ds

/-- `String.startsWith`, on the underlying character data. -/
def strStartsWith (s pre : String) : Bool :=
  charsStartWith pre.data s.data

/-- `String.endsWith`, on the underlying character data. -/
def strEndsWith (s suf : String) : Bool :=
  charsStartWith suf.data.reverse s.data.reverse

/-- Modelled from the spec: Express derives the `Content-Type` of a served
file from its extension (`sendFile` / `express.static`); `.html` maps to
`text/html`. -/
def mimeTypeFor (file : String) : String :=
  if strEndsWith file ".html" then "text/html"
  else if strEndsWith file ".js" then "application/javascript"
  else if strEndsWith file ".css" then "text/css"
  else "application/octet-stream"

/-- Modelled from the spec: `res.sendFile` responds with status 200 and
the content type derived from the file's extension. -/
def sendFile (file : String) : Response :=
  { status := 200, contentType := mimeTypeFor file, file := file }

/-- The routing of `src/unnamed/part_000`: the static middleware
`app.use('/static', express.static('public'))` (line 7) serves files under
`public/` for GET requests whose path starts with `/static/`; the route
`app.get("/")` (lines 9–11) sends `public/index.html`; anything else falls
through to Express's default 404. -/
def handleRequest (req : Request) : Response :=
  if req.method = Method.get ∧ strStartsWith req.path "/static/" then
    sendFile ("public/" ++ req.path.drop 8)
  else if req.method = Method.get ∧ req.path = "/" then
    sendFile "public/index.html"
  else { status := 404, contentType := "text/plain", file := "" }

end Server

namespace Accordion

lemma handleClick_clicked {n : Nat} (m : Bool) (i : Fin n) (s : Fin n → Panel) :
    handleClick m i s i = togglePanel (s i) := by
  simp [handleClick]

lemma handleClick_other_exclusive {n : Nat} (i j : Fin n) (s : Fin n → Panel)
    (hne : j ≠ i) : handleClick false i s j = collapsePanel (s j) := by
  simp [handleClick, hne]

lemma handleClick_other_multi {n : Nat} (i j : Fin n) (s : Fin n → Panel)
    (hne : j ≠ i) : handleClick true i s j = s j := by
  simp [handleClick, hne]

/-- **C1.** In exclusive mode (checkbox unchecked), after any click the set
of panels carrying the `"expanded"` class has at most one element, and if
it has exactly one element, that element is the clicked panel. -/
theorem exclusive_click_at_most_one_expanded {n : Nat} (s : Fin n → Panel)
    (i : Fin n) :
    (expandedSet (handleClick false i s)).card ≤ 1 ∧
      ((expandedSet (handleClick false i s)).card = 1 →
        ∀ j, (handleClick false i s j).expanded = true → j = i) := by
  have hsub : expandedSet (handleClick false i s) ⊆ {i} := by
    intro j hj
    rw [expandedSet, Finset.mem_filter] at hj
    by_contra hne
    rw [Finset.mem_singleton] at hne
    rw [handleClick_other_exclusive i j s hne] at hj
    simp [collapsePanel] at hj
  refine ⟨le_trans (Finset.card_le_card hsub) (by simp), ?_⟩
  intro _ j hj
  by_contra hne
  rw [handleClick_other_exclusive i j s hne] at hj
  simp [collapsePanel] at hj

/-- Witness for C1 at a concrete input: two panels, the second expanded,
click the first in exclusive mode. -/
theorem exclusive_click_at_most_one_expanded_witness :
    (expandedSet (handleClick false (0 : Fin 2)
        (fun j => if j = 1 then { expanded := true, display := "flex" }
                  else collapsedPanel))).card ≤ 1 ∧
      ((expandedSet (handleClick false (0 : Fin 2)
          (fun j => if j = 1 then { expanded := true, display := "flex" }
                    else collapsedPanel))).card = 1 →
        ∀ j, (handleClick false (0 : Fin 2)
            (fun j => if j = 1 then { expanded := true, display := "flex" }
                      else collapsedPanel) j).expanded = true → j = 0) :=
  exclusive_click_at_most_one_expanded _ 0

/-- **C2.** Every click toggles the clicked panel's `"expanded"` class and
sets its description's display to `"flex"` exactly when it is now
expanded, `"none"` otherwise, in either mode. -/
theorem click_toggles_clicked {n : Nat} (m : Bool) (i : Fin n)
    (s : Fin n → Panel) :
    (handleClick m i s i).expanded = !(s i).expanded ∧
      (handleClick m i s i).display =
        (if (handleClick m i s i).expanded then "flex" else "none") := by
  rw [handleClick_clicked]
  constructor <;> simp [togglePanel]

/-- **C3.** In multi-open mode (checkbox checked), a click changes only the
clicked panel: every other panel's state is unchanged. -/
theorem multi_click_frame {n : Nat} (i j : Fin n) (s : Fin n → Panel)
    (hne : j ≠ i) :
    (handleClick true i s j).expanded = (s j).expanded ∧
      (handleClick true i s j).display = (s j).display := by
  rw [handleClick_other_multi i j s hne]
  exact ⟨rfl, rfl⟩

/-- Witness for C3: two panels, click the first with multi-open on; the
second panel is unchanged. -/
theorem multi_click_frame_witness :
    (handleClick true (0 : Fin 2) init2w 1).expanded = (init2w 1).expanded ∧
      (handleClick true (0 : Fin 2) init2w 1).display = (init2w 1).display :=
  multi_click_frame 0 1 init2w (by decide)

/-- **C4.** A collapsed panel clicked twice in exclusive mode, with no
clicks in between, is collapsed again. -/
theorem exclusive_double_click_collapsed {n : Nat} (i : Fin n)
    (s : Fin n → Panel) (h : (s i).expanded = false) :
    (handleClick false i (handleClick false i s) i).expanded = false := by
  rw [handleClick_clicked, handleClick_clicked]
  simp [togglePanel, h]

/-- Witness for C4: one collapsed panel, clicked twice. -/
theorem exclusive_double_click_collapsed_witness :
    (handleClick false (0 : Fin 1)
      (handleClick false (0 : Fin 1) (fun _ => collapsedPanel)) 0).expanded
      = false :=
  exclusive_double_click_collapsed 0 (fun _ => collapsedPanel) (by decide)

/-- **C5.** Spec scenario: three panels all collapsed, checkbox unchecked
throughout. Clicking panel 2 expands exactly panel 2; clicking panel 2
again collapses all; clicking panel 1 and then panel 3 leaves exactly
panel 3 expanded. (Panels are indexed 0, 1, 2.) -/
theorem scenario_three_panels_exclusive :
    (∀ j, (handleClick false 1 init3 j).expanded = (decide (j = 1))) ∧
      (∀ j, (handleClick false 1 (handleClick false 1 init3) j).expanded
        = false) ∧
      (∀ j, (handleClick false 2 (handleClick false 0
          (handleClick false 1 (handleClick false 1 init3))) j).expanded
        = (decide (j = 2))) := by
  decide

/-- **C6.** The checkbox is read at each click, not cached at
initialization: with three collapsed panels and the checkbox unchecked at
the first click but checked at the second, the run equals the composition
of the two handler invocations each using its own click-time value, and it
differs from the run that uses the initialization-time value (unchecked)
for both clicks. -/
theorem mode_read_at_click_time :
    runClicks [(false, (0 : Fin 3)), (true, 1)] init3
        = handleClick true 1 (handleClick false 0 init3) ∧
      runClicksCachedMode false [(0 : Fin 3), 1] init3
        ≠ runClicks [(false, (0 : Fin 3)), (true, 1)] init3 := by
  constructor
  · rfl
  · decide

/-- **C7.** Clicking an expanded panel in exclusive mode collapses
everything: afterwards no panel carries the `"expanded"` class and every
description's display is `"none"`. -/
theorem exclusive_click_expanded_collapses_all {n : Nat} (i : Fin n)
    (s : Fin n → Panel) (h : (s i).expanded = true) :
    ∀ j, (handleClick false i s j).expanded = false ∧
      (handleClick false i s j).display = "none" := by
  intro j
  by_cases hj : j = i
  · subst hj
    rw [handleClick_clicked]
    simp [togglePanel, h]
  · rw [handleClick_other_exclusive i j s hj]
    exact ⟨rfl, rfl⟩

/-- Witness for C7: two panels with the first expanded, click it in
exclusive mode. -/
theorem exclusive_click_expanded_collapses_all_witness :
    ((handleClick false (0 : Fin 2) exp2w 0).expanded = false ∧
        (handleClick false (0 : Fin 2) exp2w 0).display = "none") ∧
      ((handleClick false (0 : Fin 2) exp2w 1).expanded = false ∧
        (handleClick false (0 : Fin 2) exp2w 1).display = "none") :=
  ⟨exclusive_click_expanded_collapses_all 0 exp2w (by decide) 0,
    exclusive_click_expanded_collapses_all 0 exp2w (by decide) 1⟩

/-- **C8.** The predicate "display is `flex` iff the panel is expanded" is
preserved by every click, in either mode. -/
theorem click_preserves_consistency {n : Nat} (m : Bool) (i : Fin n)
    (s : Fin n → Panel) (h : consistent s) :
    consistent (handleClick m i s) := by
  intro j
  by_cases hj : j = i
  · subst hj
    rw [handleClick_clicked]
    rcases hb : (s j).expanded with _ | _ <;> simp [togglePanel, hb]
  · cases m
    · rw [handleClick_other_exclusive i j s hj]
      simp [collapsePanel]
    · rw [handleClick_other_multi i j s hj]
      exact h j

/-- Witness for C8: the three-panel initial state is consistent, and so is
the state after a click. -/
theorem click_preserves_consistency_witness :
    consistent (handleClick false (1 : Fin 3) init3) :=
  click_preserves_consistency false 1 init3 (by decide)

/-- **C10.** The click handler is deterministic: two invocations agreeing
on the clicked index, the click-time checkbox value and the prior state of
every panel produce identical states. -/
theorem click_deterministic {n : Nat} (m m' : Bool) (i i' : Fin n)
    (s s' : Fin n → Panel) (hm : m = m') (hi : i = i') (hs : s = s') :
    handleClick m i s = handleClick m' i' s' := by
  subst hm; subst hi; subst hs; rfl

/-- Witness for C10 at a concrete invocation. -/
theorem click_deterministic_witness :
    handleClick false (1 : Fin 3) init3 = handleClick false 1 init3 :=
  click_deterministic false false 1 1 init3 init3 rfl rfl rfl

end Accordion

namespace Server

/-- **C9.** `GET /` is answered with status 200, content type `text/html`,
serving the fixed document `public/index.html`. -/
theorem get_root_ok :
    handleRequest { method := Method.get, path := "/" }
      = { status := 200, contentType := "text/html",
          file := "public/index.html" } := by
  decide

end Server
